import Mathlib

/-!
Verification of the charting core of the marketing-analytics dashboard.

The development shallowly embeds the chart geometry helpers over `ℚ`:
scale functions, path builders, the nearest-point hit tester, the stacked
contribution layout, the bar geometry, and the response-curve cache's
state transitions.  Numeric values (pixel coordinates, data values,
parsed timestamps) are modelled as rationals; timestamp strings are
modelled as the numeric instants they parse to, since no claim depends
on date parsing itself.
-/

/-- Maximum of a list of rationals, as computed by `Math.max(...values)`
on a spread array.  The charts only apply it to non-empty arrays (every
call site is behind an emptiness guard), so the JS empty case (negative
infinity) is represented by an arbitrary default of `0`. -/
def mathMax (l : List ℚ) : ℚ :=
  match l with
  | [] => 0
  | x :: xs => xs.foldl max x

/-- Minimum of a list of rationals, as computed by `Math.min(...values)`;
same emptiness convention as `mathMax`. -/
def mathMin (l : List ℚ) : ℚ :=
  match l with
  | [] => 0
  | x :: xs => xs.foldl min x

/-- Pixel padding insets, mirroring the `PADDING` constant object each
chart file declares. -/
structure Padding where
  top : ℚ
  right : ℚ
  bottom : ℚ
  left : ℚ

/-- One token of an SVG path string: either a command with one coordinate
pair (`M x,y` or `L x,y`) or the close command `Z`.  The path strings the
charts build are the space-joined renderings of these tokens, in order;
a token-level view is used so that counting coordinate pairs and locating
the close command does not depend on the decimal rendering of numbers. -/
inductive PathToken where
  | pair (cmd : String) (x y : ℚ)
  | close
deriving DecidableEq

/-- Render one token the way the template literals in the source do. -/
def renderToken : PathToken → String
  | PathToken.pair c x y => c ++ toString x ++ "," ++ toString y
  | PathToken.close => "Z"

/-- Render a token list to the final path string (tokens are joined by
single spaces, which is what `join(" ")` and the `replace(/\s+/g, " ")`
normalisation produce). -/
def renderPath (ts : List PathToken) : String :=
  String.intercalate " " (ts.map renderToken)

/-- Whether a token carries a coordinate pair. -/
def isPair : PathToken → Bool
  | PathToken.pair _ _ _ => true
  | PathToken.close => false

/-- Number of coordinate pairs in a path. -/
def countPairs (ts : List PathToken) : ℕ := ts.countP isPair

namespace TimeSeriesChart

/-- `PADDING` constant of the time-series chart file. -/
def PADDING : Padding := { top := 24, right := 24, bottom := 36, left := 48 }

/-- `chartWidth = Math.max(width, 320)`. -/
def chartWidth (width : ℚ) : ℚ := max width 320

/-- `innerWidth = Math.max(chartWidth - PADDING.left - PADDING.right, 1)`. -/
def innerWidth (width : ℚ) : ℚ :=
  max (chartWidth width - PADDING.left - PADDING.right) 1

/-- `innerHeight = Math.max(height - PADDING.top - PADDING.bottom, 1)`. -/
def innerHeight (height : ℚ) : ℚ :=
  max (height - PADDING.top - PADDING.bottom) 1

/-- `xScale` of the time-series chart: midpoint fallback for a degenerate
domain, otherwise linear interpolation of the timestamp between `minX`
and `maxX` onto `[PADDING.left, PADDING.left + innerWidth]`. -/
def xScale (minX maxX width : ℚ) (timestamp : ℚ) : ℚ :=
  if maxX = minX then PADDING.left + innerWidth width / 2
  else PADDING.left + (timestamp - minX) / (maxX - minX) * innerWidth width

/-- `yScale` of the time-series chart: midpoint fallback for a degenerate
domain, otherwise linear interpolation mapping `minY` to the bottom
(`PADDING.top + innerHeight`) and `maxY` to the top (`PADDING.top`). -/
def yScale (minY maxY height : ℚ) (value : ℚ) : ℚ :=
  if maxY = minY then PADDING.top + innerHeight height / 2
  else PADDING.top + innerHeight height
    - (value - minY) / (maxY - minY) * innerHeight height

/-- One input datum; `time` is the numeric instant the `time` string
parses to (`new Date(item.time).getTime()`). -/
structure TimeSeriesDatum where
  time : ℚ
  value : ℚ

/-- Scaled points of the chart, mirroring the `useMemo` body: the empty
input short-circuits to no points, otherwise extrema are taken over the
parsed data and every datum is scaled. -/
def points (data : List TimeSeriesDatum) (width height : ℚ) : List (ℚ × ℚ) :=
  match data with
  | [] => []
  | _ =>
    let minX := mathMin (data.map (fun d => d.time))
    let maxX := mathMax (data.map (fun d => d.time))
    let minY := mathMin (data.map (fun d => d.value))
    let maxY := mathMax (data.map (fun d => d.value))
    data.map (fun d => (xScale minX maxX width d.time, yScale minY maxY height d.value))

/-- Tokens of `linePath`: `points.map((point, index) => (index === 0 ? "M"
: "L") + point.x + "," + point.y)`. -/
def linePathTokens (pts : List (ℚ × ℚ)) : List PathToken :=
  pts.mapIdx (fun index p => PathToken.pair (if index = 0 then "M" else "L") p.1 p.2)

/-- The `linePath` string. -/
def linePath (pts : List (ℚ × ℚ)) : String := renderPath (linePathTokens pts)

/-- Tokens of `areaPath` for a non-empty point list: the forward line
tokens, then a line to the baseline under the last point, a line to the
baseline under the first point, and the close command.  `firstPoint` and
`lastPoint` are only defined for non-empty input, so the empty case
yields the empty path. -/
def areaPathTokens (pts : List (ℚ × ℚ)) (baseline : ℚ) : List PathToken :=
  match pts with
  | [] => []
  | p :: _ =>
    linePathTokens pts ++
      [PathToken.pair "L" (pts.getLastD p).1 baseline,
       PathToken.pair "L" p.1 baseline,
       PathToken.close]

/-- The `areaPath` string (before the `showArea` gate). -/
def areaPath (pts : List (ℚ × ℚ)) (baseline : ℚ) : String :=
  renderPath (areaPathTokens pts baseline)

/-- The `linePath` value the chart memo returns for given data. -/
def chartLinePath (data : List TimeSeriesDatum) (width height : ℚ) : String :=
  linePath (points data width height)

/-- The `areaPath` value the chart memo returns: empty unless `showArea`
is set, otherwise the area path over the scaled points with the baseline
at the bottom of the inner rectangle. -/
def chartAreaPath (data : List TimeSeriesDatum) (width height : ℚ)
    (showArea : Bool) : String :=
  if showArea then
    areaPath (points data width height) (PADDING.top + innerHeight height)
  else ""

/-- `hasData = points.length > 0`. -/
def hasData (data : List TimeSeriesDatum) (width height : ℚ) : Bool :=
  decide (0 < (points data width height).length)

/-- Whether the render output is the explicit no-data placeholder
(`"No data available for the selected filters."`), which the JSX shows
exactly when `hasData` is false. -/
def showsNoData (data : List TimeSeriesDatum) (width height : ℚ) : Bool :=
  !(hasData data width height)

/-- The loop body of `handleMouseMove`: scan the scaled x-coordinates
keeping the index of the strictly smallest absolute distance seen so far.
In the source the scan starts at index 0 with `smallestDistance` equal to
positive infinity, so the first iteration always updates the best pair;
this definition seeds the loop with that first iteration's result and
continues from index 1, which performs exactly the same comparisons and
updates. -/
def hitTestLoop (x : ℚ) : List ℚ → ℕ → ℕ → ℚ → ℕ × ℚ
  | [], _, best, bestD => (best, bestD)
  | p :: rest, i, best, bestD =>
    if |p - x| < bestD then hitTestLoop x rest (i + 1) i (|p - x|)
    else hitTestLoop x rest (i + 1) best bestD

/-- `closestIndex` computed by `handleMouseMove` over the scaled
x-coordinates; `0` for the empty list exactly as the source's initial
value (the handler never reaches the loop with an empty list). -/
def closestIndex (xs : List ℚ) (x : ℚ) : ℕ :=
  match xs with
  | [] => 0
  | p :: rest => (hitTestLoop x rest 1 0 (|p - x|)).1

/-- `handleMouseMove`: returns without setting a hover index when there
are no points, otherwise stores the closest index. -/
def handleMouseMove (xs : List ℚ) (x : ℚ) : Option ℕ :=
  if xs.isEmpty then none else some (closestIndex xs x)

end TimeSeriesChart

namespace ScatterChart

/-- `PADDING` constant of the scatter chart file. -/
def PADDING : Padding := { top := 32, right := 32, bottom := 48, left := 56 }

/-- `chartWidth = Math.max(width, 320)`. -/
def chartWidth (width : ℚ) : ℚ := max width 320

/-- `innerWidth = Math.max(chartWidth - PADDING.left - PADDING.right, 1)`. -/
def innerWidth (width : ℚ) : ℚ :=
  max (chartWidth width - PADDING.left - PADDING.right) 1

/-- `innerHeight = Math.max(height - PADDING.top - PADDING.bottom, 1)`. -/
def innerHeight (height : ℚ) : ℚ :=
  max (height - PADDING.top - PADDING.bottom) 1

/-- `scaleX` of the scatter chart. -/
def scaleX (minX maxX width : ℚ) (value : ℚ) : ℚ :=
  if maxX = minX then PADDING.left + innerWidth width / 2
  else PADDING.left + (value - minX) / (maxX - minX) * innerWidth width

/-- `scaleY` of the scatter chart. -/
def scaleY (minY maxY height : ℚ) (value : ℚ) : ℚ :=
  if maxY = minY then PADDING.top + innerHeight height / 2
  else PADDING.top + innerHeight height
    - (value - minY) / (maxY - minY) * innerHeight height

/-- One scatter datum. -/
structure ScatterDatum where
  label : String
  x : ℚ
  y : ℚ

/-- Scaled scatter points, mirroring the `useMemo` body. -/
def points (data : List ScatterDatum) (width height : ℚ) :
    List (ScatterDatum × ℚ × ℚ) :=
  match data with
  | [] => []
  | _ =>
    let minX := mathMin (data.map (fun d => d.x))
    let maxX := mathMax (data.map (fun d => d.x))
    let minY := mathMin (data.map (fun d => d.y))
    let maxY := mathMax (data.map (fun d => d.y))
    data.map (fun d =>
      (d, scaleX minX maxX width d.x, scaleY minY maxY height d.y))

/-- Whether the render output is the placeholder (`"Not enough data to
chart efficiency."`), shown exactly when `points` is empty. -/
def showsNoData (data : List ScatterDatum) (width height : ℚ) : Bool :=
  (points data width height).isEmpty

end ScatterChart

namespace BarChart

/-- One bar datum; `secondary` and `color` are optional fields. -/
structure BarDatum where
  label : String
  value : ℚ
  secondary : Option ℚ := none
  color : Option String := none

/-- `maxValue` of the bar chart memo: `0` for the empty short-circuit,
otherwise `Math.max(...values) || 1`, the `|| 1` replacing a zero maximum
by `1`. -/
def maxValue (data : List BarDatum) : ℚ :=
  match data with
  | [] => 0
  | _ =>
    let m := mathMax (data.map (fun d => d.value))
    if m = 0 then 1 else m

/-- `bars`: the data decorated with its index, empty for empty input. -/
def bars (data : List BarDatum) : List (BarDatum × ℕ) :=
  match data with
  | [] => []
  | _ => data.mapIdx (fun index d => (d, index))

/-- `barAreaWidth = chartWidth - 160` with `chartWidth = Math.max(width,
320)`. -/
def barAreaWidth (width : ℚ) : ℚ := max width 320 - 160

/-- `barWidth = (bar.value / maxValue) * barAreaWidth`. -/
def barWidth (data : List BarDatum) (width : ℚ) (d : BarDatum) : ℚ :=
  d.value / maxValue data * barAreaWidth width

/-- The pixel width of the rendered bar fill, `Math.max(barWidth, 4)`. -/
def renderedBarWidth (data : List BarDatum) (width : ℚ) (d : BarDatum) : ℚ :=
  max (barWidth data width d) 4

/-- Whether the render output is the placeholder (`"No channel data
available."`), shown exactly when `bars` is empty. -/
def showsNoData (data : List BarDatum) : Bool :=
  (bars data).isEmpty

end BarChart

namespace MMMContributionChart

/-- `PADDING` constant of the stacked contribution chart. -/
def PADDING : Padding := { top := 32, right := 24, bottom := 36, left := 64 }

/-- `chartWidth = Math.max(width, 320)`. -/
def chartWidth (width : ℚ) : ℚ := max width 320

/-- `innerWidth = Math.max(chartWidth - PADDING.left - PADDING.right, 1)`. -/
def innerWidth (width : ℚ) : ℚ :=
  max (chartWidth width - PADDING.left - PADDING.right) 1

/-- `innerHeight = Math.max(height - PADDING.top - PADDING.bottom, 1)`. -/
def innerHeight (height : ℚ) : ℚ :=
  max (height - PADDING.top - PADDING.bottom) 1

/-- One per-channel contribution interval of a time bucket
(`MMMContributionInterval`); the confidence bounds are omitted because
the chart only reads `id`, `name`, `mean` and `share`. -/
structure ChannelInterval where
  id : String
  name : String
  mean : ℚ
  share : ℚ

/-- One time bucket (`MMMContributionPoint`); `time` is the numeric
instant the `time` string parses to. -/
structure ContributionPoint where
  time : ℚ
  channels : List ChannelInterval

/-- One stacked layer of one time bucket; the presentational `color`
field is omitted. -/
structure StackedLayer where
  id : String
  name : String
  lower : ℚ
  upper : ℚ
  value : ℚ
  share : ℚ

/-- Default layer used only as the out-of-range fallback of list
indexing in statements. -/
def defaultLayer : StackedLayer :=
  { id := "", name := "", lower := 0, upper := 0, value := 0, share := 0 }

/-- `point.channels.find((entry) => entry.id === id)`. -/
def findChannel (p : ContributionPoint) (id : String) : Option ChannelInterval :=
  p.channels.find? (fun c => c.id == id)

/-- `const value = channel?.mean ?? 0`: the value a channel identifier
contributes to a bucket, `0` when the bucket has no channel with that
identifier. -/
def channelValue (p : ContributionPoint) (id : String) : ℚ :=
  match findChannel p id with
  | some c => c.mean
  | none => 0

/-- `channel?.name ?? id`. -/
def channelName (p : ContributionPoint) (id : String) : String :=
  match findChannel p id with
  | some c => c.name
  | none => id

/-- `channel?.share ?? 0`. -/
def channelShare (p : ContributionPoint) (id : String) : ℚ :=
  match findChannel p id with
  | some c => c.share
  | none => 0

/-- The inner `channelOrder.forEach` of the stacking memo: walk the
channel order carrying the running `baseline`, emit one layer per
channel occupying `[baseline, baseline + value]`, and return the layers
together with the final baseline. -/
def stackChannels (p : ContributionPoint) :
    List String → ℚ → List StackedLayer × ℚ
  | [], baseline => ([], baseline)
  | id :: rest, baseline =>
    let value := channelValue p id
    let layer : StackedLayer :=
      { id := id, name := channelName p id, lower := baseline,
        upper := baseline + value, value := value, share := channelShare p id }
    let tail := stackChannels p rest (baseline + value)
    (layer :: tail.1, tail.2)

/-- `channelOrder = data[0].channels.map((channel) => channel.id)` —
the stacking order fixed by the first data point, empty for empty data
(the memo short-circuits before reading it in that case). -/
def channelOrder (data : List ContributionPoint) : List String :=
  match data with
  | [] => []
  | p :: _ => p.channels.map (fun c => c.id)

/-- The layers and final running total of one time bucket, starting from
`baseline = 0`. -/
def stackPoint (order : List String) (p : ContributionPoint) :
    List StackedLayer × ℚ :=
  stackChannels p order 0

/-- `stacked`: the per-bucket layer lists of the whole chart. -/
def stacked (data : List ContributionPoint) : List (List StackedLayer) :=
  data.map (fun p => (stackPoint (channelOrder data) p).1)

/-- `xScale` of the contribution chart: `minTime`/`maxTime` are the
first and last timestamps (`times[0]`, `times[times.length - 1]`, `0`
when there are none), with the midpoint fallback when there are no
times or the two coincide. -/
def xScale (times : List ℚ) (width : ℚ) (timestamp : ℚ) : ℚ :=
  let minTime := times.headI
  let maxTime := times.getLastD 0
  if times = [] ∨ maxTime = minTime then PADDING.left + innerWidth width / 2
  else PADDING.left + (timestamp - minTime) / (maxTime - minTime) * innerWidth width

/-- `yScale` of the contribution chart: the bottom of the inner
rectangle when `totalMax` is `0`, otherwise linear interpolation of
`value / totalMax` from the bottom up to `PADDING.top`. -/
def yScale (totalMax height : ℚ) (value : ℚ) : ℚ :=
  if totalMax = 0 then PADDING.top + innerHeight height
  else PADDING.top + innerHeight height - value / totalMax * innerHeight height

/-- Whether the render output contains an explicit no-data placeholder.
The component's JSX unconditionally renders the SVG surface, the hover
overlay and the legend grid; unlike the other chart variants it has no
branch that substitutes a "no data" message when `data` is empty, so
this is constantly `false`. -/
def showsNoData (_data : List ContributionPoint) : Bool := false

end MMMContributionChart

namespace ResponseCurveGrid

/-- `WIDTH` constant of the response-curve grid. -/
def WIDTH : ℚ := 280

/-- `HEIGHT` constant of the response-curve grid. -/
def HEIGHT : ℚ := 200

/-- `PADDING` constant of the response-curve grid. -/
def PADDING : Padding := { top := 24, right := 18, bottom := 36, left := 48 }

/-- One point of a channel's response curve. -/
structure ResponseCurvePoint where
  spend : ℚ
  mean : ℚ
  lower : ℚ
  upper : ℚ

/-- One channel of the response-curve grid (`MMMResponseCurveChannel`). -/
structure Channel where
  id : String
  name : String
  points : List ResponseCurvePoint
  saturation_spend : ℚ
  diminishing_returns_start : ℚ

/-- `xScale` of `computeCurve`: `PADDING.left` when `maxSpend` is `0`,
otherwise linear interpolation of `value / maxSpend` across the inner
width. -/
def xScale (maxSpend : ℚ) (value : ℚ) : ℚ :=
  if maxSpend = 0 then PADDING.left
  else PADDING.left + value / maxSpend * (WIDTH - PADDING.left - PADDING.right)

/-- `yScale` of `computeCurve`: the bottom edge `HEIGHT - PADDING.bottom`
when `maxLift` is `0`, otherwise linear interpolation of
`1 - value / maxLift` below `PADDING.top`. -/
def yScale (maxLift : ℚ) (value : ℚ) : ℚ :=
  if maxLift = 0 then HEIGHT - PADDING.bottom
  else PADDING.top + (1 - value / maxLift) * (HEIGHT - PADDING.top - PADDING.bottom)

/-- Result record of `computeCurve`; the two path strings are kept in
token form alongside their rendered strings. -/
structure CurveResult where
  areaPathTokens : List PathToken
  linePathTokens : List PathToken
  maxSpend : ℚ
  maxLift : ℚ
  saturationX : ℚ
  diminishingX : ℚ

/-- `computeCurve`: the early return for a channel without points,
otherwise the line path through the scaled `(spend, mean)` points, and
the confidence-band area path tracing the scaled upper bounds forward
and the scaled lower bounds backward before closing.  The `means[i]`,
`uppers[i]`, `lowers[i]` and `spends[i]` arrays of the source are all
projections of `points[i]`, so the maps below iterate the points
directly. -/
def computeCurve (channel : Channel) : CurveResult :=
  match channel.points with
  | [] =>
    { areaPathTokens := [], linePathTokens := [], maxSpend := 0, maxLift := 0,
      saturationX := PADDING.left, diminishingX := PADDING.left }
  | _ =>
    let maxSpend := mathMax (channel.points.map (fun pt => pt.spend))
    let maxLift := mathMax (channel.points.map (fun pt => pt.mean))
    let line := channel.points.mapIdx (fun index pt =>
      PathToken.pair (if index = 0 then "M" else "L")
        (xScale maxSpend pt.spend) (yScale maxLift pt.mean))
    let upperBoundary := channel.points.mapIdx (fun index pt =>
      PathToken.pair (if index = 0 then "M" else "L")
        (xScale maxSpend pt.spend) (yScale maxLift pt.upper))
    let lowerBoundary := channel.points.reverse.map (fun pt =>
      PathToken.pair "L" (xScale maxSpend pt.spend) (yScale maxLift pt.lower))
    { areaPathTokens := upperBoundary ++ lowerBoundary ++ [PathToken.close],
      linePathTokens := line,
      maxSpend := maxSpend, maxLift := maxLift,
      saturationX := xScale maxSpend channel.saturation_spend,
      diminishingX := xScale maxSpend channel.diminishing_returns_start }

/-- The rendered `linePath` string of `computeCurve`. -/
def curveLinePath (channel : Channel) : String :=
  renderPath (computeCurve channel).linePathTokens

/-- The rendered `areaPath` string of `computeCurve`. -/
def curveAreaPath (channel : Channel) : String :=
  renderPath (computeCurve channel).areaPathTokens

/-- Whether `MMMResponseCurveGrid` renders its placeholder (`"Response
curve data is not available for this model."`): exactly the early return
for an empty channel list. -/
def showsNoData (channels : List Channel) : Bool :=
  channels.isEmpty

/-- The per-channel curve cards the grid renders; empty exactly when the
placeholder is shown. -/
def cards (channels : List Channel) : List CurveResult :=
  channels.map computeCurve

end ResponseCurveGrid

namespace ResponseCache

/-- `CACHE_TTL_MS = 5 * 60 * 1000`. -/
def CACHE_TTL_MS : ℕ := 5 * 60 * 1000

/-- One `ResponseCacheEntry`.  The in-flight promise object is
represented by an identity token `promiseId`: two effect runs share the
same network request exactly when they subscribe to the same token.  The
fetched payload is likewise abstracted to a token in `data`.  `data` and
`expiresAt` start unset and are filled in by the success continuation
that the creator chains onto the request promise. -/
structure Entry where
  promiseId : ℕ
  data : Option ℕ
  expiresAt : Option ℕ

/-- The module-level `responseCache` map, modelled extensionally as a
partial function from cache keys to entries. -/
def CacheMap : Type := String → Option Entry

/-- `responseCache.set(key, entry)` (JS `Map.set` replaces any existing
binding for the key). -/
def mapSet (m : CacheMap) (k : String) (e : Entry) : CacheMap :=
  fun q => if q = k then some e else m q

/-- `responseCache.delete(key)`. -/
def mapDelete (m : CacheMap) (k : String) : CacheMap :=
  fun q => if q = k then none else m q

/-- The empty cache. -/
def emptyCache : CacheMap := fun _ => none

/-- `hasFreshData`: the entry has resolved data and an expiry strictly in
the future (`cachedEntry.data && cachedEntry.expiresAt &&
cachedEntry.expiresAt > now`). -/
def hasFreshData (e : Entry) (now : ℕ) : Bool :=
  e.data.isSome &&
    (match e.expiresAt with
     | some t => decide (now < t)
     | none => false)

/-- `isExpired`: the entry has an expiry that is not in the future
(`entry?.expiresAt && entry.expiresAt <= now`). -/
def isExpired (e : Entry) (now : ℕ) : Bool :=
  match e.expiresAt with
  | some t => decide (t ≤ now)
  | none => false

/-- What one run of the data-loading effect does besides updating the
cache: serve already-cached data synchronously, start a new network
request, or subscribe to an already in-flight request's promise. -/
inductive Action where
  | serveCached (d : ℕ)
  | startFetch (pid : ℕ)
  | joinInflight (pid : ℕ)
deriving DecidableEq

/-- One run of the loading effect body for key `k` at time `now`
(`freshPid` names the request promise a run would create): serve the
entry when it has fresh data; otherwise, when there is no entry or the
entry is expired, delete the expired entry, install a fresh in-flight
entry and start a fetch; otherwise subscribe to the existing entry's
promise. -/
def effectRun (m : CacheMap) (k : String) (now freshPid : ℕ) :
    CacheMap × Action :=
  match m k with
  | some e =>
    if hasFreshData e now then (m, Action.serveCached (e.data.getD 0))
    else if isExpired e now then
      (mapSet (mapDelete m k) k
        { promiseId := freshPid, data := none, expiresAt := none },
       Action.startFetch freshPid)
    else (m, Action.joinInflight e.promiseId)
  | none =>
    (mapSet m k { promiseId := freshPid, data := none, expiresAt := none },
     Action.startFetch freshPid)

/-- The success continuation chained onto the request promise: it
mutates the entry object it created, setting `data` and `expiresAt =
Date.now() + CACHE_TTL_MS`.  The mutation is visible through the cache
map only while the map still holds that same entry object, which the
`promiseId` token identifies. -/
def resolveSuccess (m : CacheMap) (k : String) (pid : ℕ) (d : ℕ)
    (resolveTime : ℕ) : CacheMap :=
  match m k with
  | some e =>
    if e.promiseId = pid then
      mapSet m k { e with data := some d,
                          expiresAt := some (resolveTime + CACHE_TTL_MS) }
    else m
  | none => m

/-- The failure continuation chained onto the request promise:
`responseCache.delete(cacheKey)` unconditionally, then rethrow. -/
def resolveFailure (m : CacheMap) (k : String) : CacheMap :=
  mapDelete m k

end ResponseCache

/-- C1: every scale built from a numeric or time domain with `max > min`
maps the domain minimum exactly to the start of its pixel range and the
domain maximum exactly to the end of its pixel range — the time-series
`xScale` maps `minX` to `PADDING.left` and `maxX` to `PADDING.left +
innerWidth`, and likewise for the y scales (whose range runs from the
bottom of the inner rectangle to its top), the scatter scales, the
contribution-chart scales, and the response-curve grid scales (whose
domains start at `0`). -/
theorem C1_scales_map_domain_endpoints_to_range_endpoints
    (lo hi width height : ℚ) (h : lo < hi) :
    (TimeSeriesChart.xScale lo hi width lo = TimeSeriesChart.PADDING.left ∧
      TimeSeriesChart.xScale lo hi width hi =
        TimeSeriesChart.PADDING.left + TimeSeriesChart.innerWidth width) ∧
    (TimeSeriesChart.yScale lo hi height lo =
        TimeSeriesChart.PADDING.top + TimeSeriesChart.innerHeight height ∧
      TimeSeriesChart.yScale lo hi height hi = TimeSeriesChart.PADDING.top) ∧
    (ScatterChart.scaleX lo hi width lo = ScatterChart.PADDING.left ∧
      ScatterChart.scaleX lo hi width hi =
        ScatterChart.PADDING.left + ScatterChart.innerWidth width) ∧
    (ScatterChart.scaleY lo hi height lo =
        ScatterChart.PADDING.top + ScatterChart.innerHeight height ∧
      ScatterChart.scaleY lo hi height hi = ScatterChart.PADDING.top) ∧
    (MMMContributionChart.xScale [lo, hi] width lo =
        MMMContributionChart.PADDING.left ∧
      MMMContributionChart.xScale [lo, hi] width hi =
        MMMContributionChart.PADDING.left +
          MMMContributionChart.innerWidth width) ∧
    (0 < hi →
      MMMContributionChart.yScale hi height 0 =
          MMMContributionChart.PADDING.top +
            MMMContributionChart.innerHeight height ∧
        MMMContributionChart.yScale hi height hi =
          MMMContributionChart.PADDING.top) ∧
    (0 < hi →
      ResponseCurveGrid.xScale hi 0 = ResponseCurveGrid.PADDING.left ∧
        ResponseCurveGrid.xScale hi hi =
          ResponseCurveGrid.PADDING.left +
            (ResponseCurveGrid.WIDTH - ResponseCurveGrid.PADDING.left -
              ResponseCurveGrid.PADDING.right)) ∧
    (0 < hi →
      ResponseCurveGrid.yScale hi 0 =
          ResponseCurveGrid.HEIGHT - ResponseCurveGrid.PADDING.bottom ∧
        ResponseCurveGrid.yScale hi hi = ResponseCurveGrid.PADDING.top) := by
  have hne : hi ≠ lo := h.ne'
  have hsub : hi - lo ≠ 0 := sub_ne_zero.mpr hne
  refine ⟨⟨?_, ?_⟩, ⟨?_, ?_⟩, ⟨?_, ?_⟩, ⟨?_, ?_⟩, ⟨?_, ?_⟩, ?_, ?_, ?_⟩
  · simp [TimeSeriesChart.xScale, hne]
  · simp [TimeSeriesChart.xScale, hne, div_self hsub]
  · simp [TimeSeriesChart.yScale, hne]
  · simp [TimeSeriesChart.yScale, hne, div_self hsub]
  · simp [ScatterChart.scaleX, hne]
  · simp [ScatterChart.scaleX, hne, div_self hsub]
  · simp [ScatterChart.scaleY, hne]
  · simp [ScatterChart.scaleY, hne, div_self hsub]
  · simp [MMMContributionChart.xScale, List.getLastD, hne]
  · simp [MMMContributionChart.xScale, List.getLastD, hne, div_self hsub]
  · intro h0
    have h0ne : hi ≠ 0 := h0.ne'
    constructor
    · simp [MMMContributionChart.yScale, h0ne]
    · simp [MMMContributionChart.yScale, h0ne, div_self h0ne]
  · intro h0
    have h0ne : hi ≠ 0 := h0.ne'
    constructor
    · simp [ResponseCurveGrid.xScale, h0ne]
    · simp [ResponseCurveGrid.xScale, h0ne, div_self h0ne]
  · intro h0
    have h0ne : hi ≠ 0 := h0.ne'
    constructor
    · simp [ResponseCurveGrid.yScale, ResponseCurveGrid.PADDING,
        ResponseCurveGrid.HEIGHT, h0ne]
      norm_num
    · simp [ResponseCurveGrid.yScale, h0ne, div_self h0ne]

/-- C1 witness: at the concrete domain `[0, 10]` and width `400`, the
time-series x scale hits both range endpoints and the grid x scale hits
the right edge of its range. -/
theorem C1_scales_map_domain_endpoints_witness :
    TimeSeriesChart.xScale 0 10 400 0 = TimeSeriesChart.PADDING.left ∧
    TimeSeriesChart.xScale 0 10 400 10 =
      TimeSeriesChart.PADDING.left + TimeSeriesChart.innerWidth 400 ∧
    ResponseCurveGrid.xScale 10 10 =
      ResponseCurveGrid.PADDING.left +
        (ResponseCurveGrid.WIDTH - ResponseCurveGrid.PADDING.left -
          ResponseCurveGrid.PADDING.right) := by
  have h := C1_scales_map_domain_endpoints_to_range_endpoints 0 10 400 300
    (by norm_num)
  exact ⟨h.1.1, h.1.2, (h.2.2.2.2.2.2.1 (by norm_num)).2⟩

/-- C2 counterexample: the response-curve grid's x scale with the
degenerate domain (`maxSpend = 0`) maps the input `0` to the left edge
`PADDING.left = 48` of its pixel range `[48, 262]`, not to the range
midpoint `(48 + 262) / 2 = 155` the claim requires. -/
theorem C2_grid_degenerate_scale_not_midpoint_counterexample :
    ResponseCurveGrid.xScale 0 0 = ResponseCurveGrid.PADDING.left ∧
    ResponseCurveGrid.PADDING.left +
        (ResponseCurveGrid.WIDTH - ResponseCurveGrid.PADDING.left -
          ResponseCurveGrid.PADDING.right) = 262 ∧
    ResponseCurveGrid.xScale 0 0 ≠
      (ResponseCurveGrid.PADDING.left + 262) / 2 := by
  refine ⟨?_, ?_, ?_⟩
  · simp [ResponseCurveGrid.xScale]
  · norm_num [ResponseCurveGrid.PADDING, ResponseCurveGrid.WIDTH]
  · simp only [ResponseCurveGrid.xScale, if_pos rfl]
    norm_num [ResponseCurveGrid.PADDING]

/-- C2 amended: a degenerate domain (`max = min`) maps every input to
the midpoint `(rangeStart + rangeEnd) / 2` of the pixel range for the
time-series x and y scales, the scatter x and y scales, and the
contribution chart's x scale; but the response-curve grid's x scale
returns the left edge of the range, the grid's y scale returns the
bottom edge, and the contribution chart's y scale returns the bottom of
the inner rectangle. -/
theorem C2_degenerate_domain_fallbacks (m v width height : ℚ) :
    TimeSeriesChart.xScale m m width v =
        (TimeSeriesChart.PADDING.left +
          (TimeSeriesChart.PADDING.left + TimeSeriesChart.innerWidth width)) / 2 ∧
    TimeSeriesChart.yScale m m height v =
        ((TimeSeriesChart.PADDING.top + TimeSeriesChart.innerHeight height) +
          TimeSeriesChart.PADDING.top) / 2 ∧
    ScatterChart.scaleX m m width v =
        (ScatterChart.PADDING.left +
          (ScatterChart.PADDING.left + ScatterChart.innerWidth width)) / 2 ∧
    ScatterChart.scaleY m m height v =
        ((ScatterChart.PADDING.top + ScatterChart.innerHeight height) +
          ScatterChart.PADDING.top) / 2 ∧
    MMMContributionChart.xScale [m] width v =
        (MMMContributionChart.PADDING.left +
          (MMMContributionChart.PADDING.left +
            MMMContributionChart.innerWidth width)) / 2 ∧
    ResponseCurveGrid.xScale 0 v = ResponseCurveGrid.PADDING.left ∧
    ResponseCurveGrid.yScale 0 v =
        ResponseCurveGrid.HEIGHT - ResponseCurveGrid.PADDING.bottom ∧
    MMMContributionChart.yScale 0 height v =
        MMMContributionChart.PADDING.top +
          MMMContributionChart.innerHeight height := by
  refine ⟨?_, ?_, ?_, ?_, ?_, ?_, ?_, ?_⟩
  · simp [TimeSeriesChart.xScale]; ring
  · simp [TimeSeriesChart.yScale]; ring
  · simp [ScatterChart.scaleX]; ring
  · simp [ScatterChart.scaleY]; ring
  · simp [MMMContributionChart.xScale, List.getLastD]; ring
  · simp [ResponseCurveGrid.xScale]
  · simp [ResponseCurveGrid.yScale]
  · simp [MMMContributionChart.yScale]

/-- C2 amended witness: the time-series x scale at a flat domain `[5, 5]`
and width `400` returns the midpoint of `[48, 344]`, and the grid's x
scale at the degenerate domain returns the left edge. -/
theorem C2_degenerate_domain_fallbacks_witness :
    TimeSeriesChart.xScale 5 5 400 5 =
      (TimeSeriesChart.PADDING.left +
        (TimeSeriesChart.PADDING.left + TimeSeriesChart.innerWidth 400)) / 2 ∧
    ResponseCurveGrid.xScale 0 7 = ResponseCurveGrid.PADDING.left := by
  have h := C2_degenerate_domain_fallbacks 5 7 400 300
  exact ⟨(C2_degenerate_domain_fallbacks 5 5 400 300).1, h.2.2.2.2.2.1⟩

namespace TimeSeriesChart

/-- Invariant of the `handleMouseMove` scan: starting from a best index
`b` strictly left of the scan position `i` with running best distance
`bestD`, the loop result (index, distance) satisfies: the final distance
is a lower bound of `bestD` and of every remaining distance; the final
pair is either the carried one or a strictly improving element of the
remainder; and any remaining element whose distance equals the final
distance sits at or after the final index (strict-less comparison keeps
the earliest). -/
lemma hitTestLoop_spec (x : ℚ) :
    ∀ (rest : List ℚ) (i b : ℕ) (bestD : ℚ), b < i →
      (hitTestLoop x rest i b bestD).2 ≤ bestD ∧
      (∀ k, k < rest.length →
        (hitTestLoop x rest i b bestD).2 ≤ |rest.getD k 0 - x|) ∧
      ((hitTestLoop x rest i b bestD).1 = b ∧
          (hitTestLoop x rest i b bestD).2 = bestD ∨
        ∃ k, k < rest.length ∧ (hitTestLoop x rest i b bestD).1 = i + k ∧
          (hitTestLoop x rest i b bestD).2 = |rest.getD k 0 - x| ∧
          (hitTestLoop x rest i b bestD).2 < bestD) ∧
      (∀ k, k < rest.length →
        |rest.getD k 0 - x| = (hitTestLoop x rest i b bestD).2 →
        (hitTestLoop x rest i b bestD).1 ≤ i + k) := by
  intro rest
  induction rest with
  | nil =>
    intro i b bestD hb
    refine ⟨le_refl _, ?_, Or.inl ⟨rfl, rfl⟩, ?_⟩
    · intro k hk
      exact absurd hk (by simp)
    · intro k hk
      exact absurd hk (by simp)
  | cons p rest ih =>
    intro i b bestD hb
    by_cases hlt : |p - x| < bestD
    · simp only [hitTestLoop, if_pos hlt]
      obtain ⟨h1, h2, h3, h4⟩ := ih (i + 1) i (|p - x|) (Nat.lt_succ_self i)
      refine ⟨h1.trans hlt.le, ?_, ?_, ?_⟩
      · intro k hk
        cases k with
        | zero => simpa using h1
        | succ k =>
          have hk' : k < rest.length := by simpa using hk
          simpa using h2 k hk'
      · rcases h3 with ⟨hb1, hd1⟩ | ⟨k, hk, hik, hdk, hlt2⟩
        · refine Or.inr ⟨0, by simp, by simpa using hb1, by simpa using hd1, ?_⟩
          rw [hd1]
          exact hlt
        · refine Or.inr ⟨k + 1, by simpa using hk, hik.trans (by omega), ?_, hlt2.trans hlt⟩
          simpa using hdk
      · intro k hk hdk
        cases k with
        | zero =>
          have hdk0 : |p - x| = (hitTestLoop x rest (i + 1) i (|p - x|)).2 := by
            simpa using hdk
          rcases h3 with ⟨hb1, _⟩ | ⟨k', _, _, _, hlt2⟩
          · rw [hb1]
            omega
          · exact absurd hdk0 hlt2.ne'
        | succ k =>
          have hk' : k < rest.length := by simpa using hk
          have := h4 k hk' (by simpa using hdk)
          omega
    · simp only [hitTestLoop, if_neg hlt]
      have hge : bestD ≤ |p - x| := not_lt.mp hlt
      obtain ⟨h1, h2, h3, h4⟩ := ih (i + 1) b bestD (by omega)
      refine ⟨h1, ?_, ?_, ?_⟩
      · intro k hk
        cases k with
        | zero => simpa using h1.trans hge
        | succ k =>
          have hk' : k < rest.length := by simpa using hk
          simpa using h2 k hk'
      · rcases h3 with hcase | ⟨k, hk, hik, hdk, hlt2⟩
        · exact Or.inl hcase
        · refine Or.inr ⟨k + 1, by simpa using hk, hik.trans (by omega), ?_, hlt2⟩
          simpa using hdk
      · intro k hk hdk
        cases k with
        | zero =>
          have hdk0 : |p - x| = (hitTestLoop x rest (i + 1) b bestD).2 := by
            simpa using hdk
          have heq : (hitTestLoop x rest (i + 1) b bestD).2 = bestD :=
            le_antisymm h1 (le_trans hge (le_of_eq hdk0))
          rcases h3 with ⟨hb1, _⟩ | ⟨k', _, _, _, hlt2⟩
          · rw [hb1]
            omega
          · exact absurd heq hlt2.ne
        | succ k =>
          have hk' : k < rest.length := by simpa using hk
          have := h4 k hk' (by simpa using hdk)
          omega

/-- Full specification of `closestIndex` on a non-empty list: it is an
in-range index attaining the minimum absolute distance to the pointer,
and the smallest index among those attaining it. -/
lemma closestIndex_spec (xs : List ℚ) (x : ℚ) (h : xs ≠ []) :
    closestIndex xs x < xs.length ∧
    (∀ j, j < xs.length →
      |xs.getD (closestIndex xs x) 0 - x| ≤ |xs.getD j 0 - x|) ∧
    (∀ j, j < xs.length →
      |xs.getD j 0 - x| = |xs.getD (closestIndex xs x) 0 - x| →
      closestIndex xs x ≤ j) := by
  match xs with
  | [] => exact absurd rfl h
  | p :: rest =>
    obtain ⟨h1, h2, h3, h4⟩ := hitTestLoop_spec x rest 1 0 (|p - x|) Nat.one_pos
    have hci : closestIndex (p :: rest) x = (hitTestLoop x rest 1 0 (|p - x|)).1 := rfl
    have hdist : |(p :: rest).getD (closestIndex (p :: rest) x) 0 - x| =
        (hitTestLoop x rest 1 0 (|p - x|)).2 := by
      rcases h3 with ⟨hb1, hd1⟩ | ⟨k, hk, hik, hdk, _⟩
      · rw [hci, hb1, hd1]
        simp
      · rw [hci, hik, Nat.add_comm 1 k, List.getD_cons_succ, hdk]
    refine ⟨?_, ?_, ?_⟩
    · rcases h3 with ⟨hb1, _⟩ | ⟨k, hk, hik, _, _⟩
      · rw [hci, hb1]
        simp
      · rw [hci, hik]
        simp only [List.length_cons]
        omega
    · intro j hj
      rw [hdist]
      cases j with
      | zero => simpa using h1
      | succ j =>
        have hj' : j < rest.length := by simpa using hj
        simpa using h2 j hj'
    · intro j hj hdj
      rw [hdist] at hdj
      cases j with
      | zero =>
        have hdj0 : |p - x| = (hitTestLoop x rest 1 0 (|p - x|)).2 := by
          simpa using hdj
        rcases h3 with ⟨hb1, _⟩ | ⟨k', _, _, _, hlt2⟩
        · rw [hci, hb1]
        · exact absurd hdj0 hlt2.ne'
      | succ j =>
        have hj' : j < rest.length := by simpa using hj
        have := h4 j hj' (by simpa using hdj)
        rw [hci]
        omega

end TimeSeriesChart

/-- C3: on a non-empty array of scaled points, the hit tester returns an
in-range index of a point whose scaled x-coordinate has the minimum
absolute distance to the pointer x, and when several points attain that
minimum it returns the smallest such index. -/
theorem C3_hit_tester_returns_earliest_nearest_index
    (xs : List ℚ) (x : ℚ) (h : xs ≠ []) :
    TimeSeriesChart.closestIndex xs x < xs.length ∧
    (∀ j, j < xs.length →
      |xs.getD (TimeSeriesChart.closestIndex xs x) 0 - x| ≤ |xs.getD j 0 - x|) ∧
    (∀ j, j < xs.length →
      |xs.getD j 0 - x| = |xs.getD (TimeSeriesChart.closestIndex xs x) 0 - x| →
      TimeSeriesChart.closestIndex xs x ≤ j) :=
  TimeSeriesChart.closestIndex_spec xs x h

/-- C3 witness: with scaled points at `0` and `10` and the pointer
exactly halfway at `5`, both points are at distance `5` and the earlier
index `0` is returned; the bound and minimality facts are instantiated
from the theorem. -/
theorem C3_hit_tester_witness :
    TimeSeriesChart.closestIndex [0, 10] 5 < 2 ∧
    (∀ j, j < 2 →
      |[(0 : ℚ), 10].getD (TimeSeriesChart.closestIndex [0, 10] 5) 0 - 5| ≤
        |[(0 : ℚ), 10].getD j 0 - 5|) := by
  have h := C3_hit_tester_returns_earliest_nearest_index [0, 10] 5 (by simp)
  exact ⟨h.1, h.2.1⟩

/-- C9: for a non-empty point array the pointer-move handler stores a
hover index that is always in range, and for an empty array it returns
without setting an index, leaving the hover state `null`. -/
theorem C9_hover_index_always_in_range :
    (∀ (xs : List ℚ) (x : ℚ), xs ≠ [] →
      ∃ i, TimeSeriesChart.handleMouseMove xs x = some i ∧ i < xs.length) ∧
    (∀ x : ℚ, TimeSeriesChart.handleMouseMove [] x = none) := by
  constructor
  · intro xs x h
    refine ⟨TimeSeriesChart.closestIndex xs x, ?_,
      (TimeSeriesChart.closestIndex_spec xs x h).1⟩
    simp [TimeSeriesChart.handleMouseMove, h]
  · intro x
    simp [TimeSeriesChart.handleMouseMove]

/-- C9 witness: on the single point `3` the handler stores an in-range
index, and on no points it stores none. -/
theorem C9_hover_index_witness :
    (∃ i, TimeSeriesChart.handleMouseMove [3] 0 = some i ∧ i < 1) ∧
    TimeSeriesChart.handleMouseMove [] 0 = none := by
  have h := C9_hover_index_always_in_range
  exact ⟨by simpa using h.1 [3] 0 (by simp), h.2 0⟩





namespace MMMContributionChart

/-- The final baseline of the stacking fold is the starting baseline
plus the sum of the contributed channel values. -/
lemma stackChannels_snd (p : ContributionPoint) :
    ∀ (order : List String) (b : ℚ),
      (stackChannels p order b).2 = b + (order.map (channelValue p)).sum := by
  intro order
  induction order with
  | nil =>
    intro b
    simp [stackChannels]
  | cons c rest ih =>
    intro b
    simp only [stackChannels, List.map_cons, List.sum_cons]
    rw [ih]
    ring

/-- The stacking fold emits exactly one layer per channel identifier, in
order. -/
lemma stackChannels_ids (p : ContributionPoint) :
    ∀ (order : List String) (b : ℚ),
      (stackChannels p order b).1.map (fun l => l.id) = order := by
  intro order
  induction order with
  | nil =>
    intro b
    simp [stackChannels]
  | cons c rest ih =>
    intro b
    simp [stackChannels, ih]

/-- Shape of the `k`-th layer emitted by the stacking fold: its value is
the contributed value of the `k`-th channel identifier, its lower bound
is the starting baseline plus the sum of the earlier values, and its
upper bound is its lower bound plus its value. -/
lemma stackChannels_layer (p : ContributionPoint) :
    ∀ (order : List String) (b : ℚ) (k : ℕ), k < order.length →
      ((stackChannels p order b).1.getD k defaultLayer).value =
          channelValue p (order.getD k "") ∧
      ((stackChannels p order b).1.getD k defaultLayer).lower =
          b + ((order.take k).map (channelValue p)).sum ∧
      ((stackChannels p order b).1.getD k defaultLayer).upper =
          ((stackChannels p order b).1.getD k defaultLayer).lower +
            ((stackChannels p order b).1.getD k defaultLayer).value := by
  intro order
  induction order with
  | nil =>
    intro b k hk
    exact absurd hk (by simp)
  | cons c rest ih =>
    intro b k hk
    cases k with
    | zero =>
      refine ⟨?_, ?_, ?_⟩ <;> simp [stackChannels]
    | succ k =>
      have hk' : k < rest.length := by simpa using hk
      obtain ⟨hv, hl, hu⟩ := ih (b + channelValue p c) k hk'
      refine ⟨?_, ?_, ?_⟩
      · simpa [stackChannels] using hv
      · simp only [stackChannels, List.getD_cons_succ, List.take_succ_cons,
          List.map_cons, List.sum_cons]
        rw [hl]
        ring
      · simpa [stackChannels] using hu

/-- A channel identifier absent from a bucket's channel list contributes
the value `0`. -/
lemma channelValue_of_missing (p : ContributionPoint) (id : String)
    (h : ∀ c ∈ p.channels, c.id ≠ id) : channelValue p id = 0 := by
  unfold channelValue findChannel
  rw [List.find?_eq_none.mpr (by intro c hc; simp [h c hc])]

end MMMContributionChart

/-- C4: in the stacked contribution chart, every time bucket's layers
follow the channel order of the first data point; the bucket's stack is
one of the chart's stacked rows; each layer occupies `[runningTotal,
runningTotal + channelValue]` where the running total is the sum of the
earlier channels' values; a channel identifier missing from a bucket
contributes `0`; and the running total after the last channel equals the
sum of the bucket's contributed channel values. -/
theorem C4_stacked_contribution_invariant
    (data : List MMMContributionChart.ContributionPoint)
    (p : MMMContributionChart.ContributionPoint)
    (_hne : data ≠ []) (hp : p ∈ data) :
    (MMMContributionChart.stackPoint (MMMContributionChart.channelOrder data) p).1
        ∈ MMMContributionChart.stacked data ∧
    (MMMContributionChart.stackPoint (MMMContributionChart.channelOrder data) p).1.map
        (fun l => l.id) = MMMContributionChart.channelOrder data ∧
    (∀ k, k < (MMMContributionChart.channelOrder data).length →
      (((MMMContributionChart.stackPoint (MMMContributionChart.channelOrder data) p).1.getD
            k MMMContributionChart.defaultLayer).value =
          MMMContributionChart.channelValue p
            ((MMMContributionChart.channelOrder data).getD k "") ∧
        ((MMMContributionChart.stackPoint (MMMContributionChart.channelOrder data) p).1.getD
            k MMMContributionChart.defaultLayer).lower =
          (((MMMContributionChart.channelOrder data).take k).map
            (MMMContributionChart.channelValue p)).sum ∧
        ((MMMContributionChart.stackPoint (MMMContributionChart.channelOrder data) p).1.getD
            k MMMContributionChart.defaultLayer).upper =
          ((MMMContributionChart.stackPoint (MMMContributionChart.channelOrder data) p).1.getD
              k MMMContributionChart.defaultLayer).lower +
            ((MMMContributionChart.stackPoint (MMMContributionChart.channelOrder data) p).1.getD
              k MMMContributionChart.defaultLayer).value)) ∧
    (∀ id, (∀ c ∈ p.channels, c.id ≠ id) →
      MMMContributionChart.channelValue p id = 0) ∧
    (MMMContributionChart.stackPoint (MMMContributionChart.channelOrder data) p).2 =
      ((MMMContributionChart.channelOrder data).map
        (MMMContributionChart.channelValue p)).sum := by
  refine ⟨?_, ?_, ?_, ?_, ?_⟩
  · exact List.mem_map_of_mem _ hp
  · exact MMMContributionChart.stackChannels_ids p _ 0
  · intro k hk
    have h := MMMContributionChart.stackChannels_layer p
      (MMMContributionChart.channelOrder data) 0 k hk
    simpa using h
  · intro id h
    exact MMMContributionChart.channelValue_of_missing p id h
  · rw [MMMContributionChart.stackPoint, MMMContributionChart.stackChannels_snd]
    ring

/-- C4 witness: a two-bucket chart whose second bucket lacks channel
`"b"`; the second bucket's stack keeps both layers in the first bucket's
order, the missing channel contributes `0`, and the final running total
equals the sum of contributed values, which is `2`. -/
theorem C4_stacked_contribution_witness :
    (MMMContributionChart.stackPoint
        (MMMContributionChart.channelOrder
          [{ time := 0, channels := [{ id := "a", name := "A", mean := 3, share := 1/2 },
                                     { id := "b", name := "B", mean := 5, share := 1/2 }] },
           { time := 1, channels := [{ id := "a", name := "A", mean := 2, share := 1 }] }])
        { time := 1, channels := [{ id := "a", name := "A", mean := 2, share := 1 }] }).2 =
      ((MMMContributionChart.channelOrder
          [{ time := 0, channels := [{ id := "a", name := "A", mean := 3, share := 1/2 },
                                     { id := "b", name := "B", mean := 5, share := 1/2 }] },
           { time := 1, channels := [{ id := "a", name := "A", mean := 2, share := 1 }] }]).map
        (MMMContributionChart.channelValue
          { time := 1, channels := [{ id := "a", name := "A", mean := 2, share := 1 }] })).sum ∧
    ((MMMContributionChart.channelOrder
        [{ time := 0, channels := [{ id := "a", name := "A", mean := 3, share := 1/2 },
                                   { id := "b", name := "B", mean := 5, share := 1/2 }] },
         { time := 1, channels := [{ id := "a", name := "A", mean := 2, share := 1 }] }]).map
      (MMMContributionChart.channelValue
        { time := 1, channels := [{ id := "a", name := "A", mean := 2, share := 1 }] })).sum = 2 := by
  have h := C4_stacked_contribution_invariant
    [{ time := 0, channels := [{ id := "a", name := "A", mean := 3, share := 1/2 },
                               { id := "b", name := "B", mean := 5, share := 1/2 }] },
     { time := 1, channels := [{ id := "a", name := "A", mean := 2, share := 1 }] }]
    { time := 1, channels := [{ id := "a", name := "A", mean := 2, share := 1 }] }
    (by simp) (by simp)
  refine ⟨h.2.2.2.2, ?_⟩
  simp [MMMContributionChart.channelOrder, MMMContributionChart.channelValue,
    MMMContributionChart.findChannel]

namespace TimeSeriesChart

/-- Every token an index-aware map produces is a coordinate pair, so the
pair count of the mapped list is the input length. -/
lemma countP_isPair_mapIdx (pts : List (ℚ × ℚ)) :
    ∀ f : ℕ → ℚ × ℚ → PathToken, (∀ i p, isPair (f i p) = true) →
      List.countP isPair (pts.mapIdx f) = pts.length := by
  induction pts with
  | nil =>
    intro f hf
    simp
  | cons p rest ih =>
    intro f hf
    rw [List.mapIdx_cons, List.countP_cons, ih (fun i => f (i + 1)) (fun i q => hf (i + 1) q)]
    simp [hf 0 p]

/-- The forward line path contributes exactly one coordinate pair per
input point. -/
lemma countPairs_linePathTokens (pts : List (ℚ × ℚ)) :
    countPairs (linePathTokens pts) = pts.length :=
  countP_isPair_mapIdx pts _ (fun _ _ => rfl)

end TimeSeriesChart

/-- Rendering the empty token list yields the empty path string. -/
lemma renderPath_nil : renderPath [] = "" := by decide

/-- C5 counterexample: for `N = 2` input points the area path contains
`4` coordinate pairs (the two forward points plus the two baseline
corners), not `2 * 2 + 2 = 6` as the claim requires. -/
theorem C5_area_path_pair_count_counterexample :
    countPairs (TimeSeriesChart.areaPathTokens [(0, 0), (1, 1)] 10) = 4 ∧
    countPairs (TimeSeriesChart.areaPathTokens [(0, 0), (1, 1)] 10) ≠ 2 * 2 + 2 := by
  constructor <;> decide

/-- C5 amended: for every non-empty input of `N` scaled points the area
path ends with the close instruction and contains exactly `N + 2`
coordinate pairs (the forward line plus the two baseline corners); the
empty input yields the empty path. -/
theorem C5_area_path_close_and_pair_count
    (pts : List (ℚ × ℚ)) (baseline : ℚ) (h : pts ≠ []) :
    (TimeSeriesChart.areaPathTokens pts baseline).getLast? = some PathToken.close ∧
    countPairs (TimeSeriesChart.areaPathTokens pts baseline) = pts.length + 2 := by
  match pts with
  | p :: rest =>
    constructor
    · simp [TimeSeriesChart.areaPathTokens, List.getLast?_append]
    · simp only [TimeSeriesChart.areaPathTokens, countPairs, List.countP_append]
      rw [show List.countP isPair (TimeSeriesChart.linePathTokens (p :: rest)) =
        (p :: rest).length from TimeSeriesChart.countPairs_linePathTokens (p :: rest)]
      simp [isPair]

/-- C5 amended witness: the two-point area path at baseline `10` ends
with the close token and has `2 + 2 = 4` coordinate pairs. -/
theorem C5_area_path_close_and_pair_count_witness :
    (TimeSeriesChart.areaPathTokens [(0, 0), (1, 1)] 10).getLast? =
      some PathToken.close ∧
    countPairs (TimeSeriesChart.areaPathTokens [(0, 0), (1, 1)] 10) = 2 + 2 :=
  C5_area_path_close_and_pair_count [(0, 0), (1, 1)] 10 (by simp)

/-- C6 counterexample: a single-point input yields the line path
`"M5,7"`, a non-empty single move command, where the claim requires the
empty string. -/
theorem C6_single_point_line_path_counterexample :
    TimeSeriesChart.linePath [(5, 7)] = "M5,7" ∧
    TimeSeriesChart.linePath [(5, 7)] ≠ "" := by
  constructor <;> decide

/-- C6 amended: with `0` points the line and area path builders (both in
the time-series chart and in the response-curve grid's `computeCurve`)
yield the empty path string; with `1` point the line path is a single
move command and the area path is a move, two coincident baseline
corners and a close — both non-empty, not the empty string. -/
theorem C6_path_builders_on_degenerate_input :
    (TimeSeriesChart.linePath [] = "" ∧
      (∀ b : ℚ, TimeSeriesChart.areaPath [] b = "") ∧
      (∀ ch : ResponseCurveGrid.Channel, ch.points = [] →
        ResponseCurveGrid.curveLinePath ch = "" ∧
        ResponseCurveGrid.curveAreaPath ch = "")) ∧
    (∀ p : ℚ × ℚ,
      TimeSeriesChart.linePathTokens [p] = [PathToken.pair "M" p.1 p.2]) ∧
    (∀ (p : ℚ × ℚ) (b : ℚ),
      TimeSeriesChart.areaPathTokens [p] b =
        [PathToken.pair "M" p.1 p.2, PathToken.pair "L" p.1 b,
         PathToken.pair "L" p.1 b, PathToken.close]) ∧
    (∀ (ch : ResponseCurveGrid.Channel) (pt : ResponseCurveGrid.ResponseCurvePoint),
      ch.points = [pt] →
      (ResponseCurveGrid.computeCurve ch).linePathTokens =
        [PathToken.pair "M" (ResponseCurveGrid.xScale pt.spend pt.spend)
          (ResponseCurveGrid.yScale pt.mean pt.mean)]) := by
  refine ⟨⟨rfl, fun b => rfl, ?_⟩, ?_, ?_, ?_⟩
  · intro ch h
    constructor
    · simp [ResponseCurveGrid.curveLinePath, ResponseCurveGrid.computeCurve, h, renderPath_nil]
    · simp [ResponseCurveGrid.curveAreaPath, ResponseCurveGrid.computeCurve, h, renderPath_nil]
  · intro p
    simp [TimeSeriesChart.linePathTokens]
  · intro p b
    simp [TimeSeriesChart.areaPathTokens, TimeSeriesChart.linePathTokens, List.getLastD]
  · intro ch pt h
    simp [ResponseCurveGrid.computeCurve, h, mathMax]

/-- C6 amended witness: empty input gives the empty line path, and the
single point `(5, 7)` gives the single move token. -/
theorem C6_path_builders_on_degenerate_input_witness :
    TimeSeriesChart.linePath [] = "" ∧
    TimeSeriesChart.linePathTokens [(5, 7)] = [PathToken.pair "M" 5 7] := by
  have h := C6_path_builders_on_degenerate_input
  exact ⟨h.1.1, h.2.1 (5, 7)⟩

/-- C7 counterexample: the stacked contribution chart with an empty data
array produces no layers, but it renders no "no data" placeholder — its
JSX has no empty-data branch — falsifying the claim that every chart
variant renders one. -/
theorem C7_contribution_chart_no_placeholder_counterexample :
    MMMContributionChart.showsNoData [] = false ∧
    MMMContributionChart.stacked [] = [] :=
  ⟨rfl, rfl⟩

/-- C7 amended: the time-series, bar and scatter charts and the
response-curve grid each render their explicit "no data" placeholder on
an empty data array and produce no chart geometry; the stacked
contribution chart likewise produces no geometry on empty data, but it
renders no placeholder. -/
theorem C7_empty_data_placeholders (width height : ℚ) :
    (TimeSeriesChart.showsNoData [] width height = true ∧
      TimeSeriesChart.points [] width height = [] ∧
      TimeSeriesChart.chartLinePath [] width height = "" ∧
      (∀ sArea : Bool, TimeSeriesChart.chartAreaPath [] width height sArea = "")) ∧
    (BarChart.showsNoData [] = true ∧ BarChart.bars [] = []) ∧
    (ScatterChart.showsNoData [] width height = true ∧
      ScatterChart.points [] width height = []) ∧
    (ResponseCurveGrid.showsNoData [] = true ∧ ResponseCurveGrid.cards [] = []) ∧
    (MMMContributionChart.showsNoData [] = false ∧
      MMMContributionChart.stacked [] = []) := by
  refine ⟨⟨?_, rfl, ?_, ?_⟩, ⟨rfl, rfl⟩, ⟨rfl, rfl⟩, ⟨rfl, rfl⟩, rfl, rfl⟩
  · simp [TimeSeriesChart.showsNoData, TimeSeriesChart.hasData, TimeSeriesChart.points]
  · simp [TimeSeriesChart.chartLinePath, TimeSeriesChart.points,
      TimeSeriesChart.linePath, TimeSeriesChart.linePathTokens, renderPath_nil]
  · intro sArea
    cases sArea with
    | false => rfl
    | true =>
      simp [TimeSeriesChart.chartAreaPath, TimeSeriesChart.points,
        TimeSeriesChart.areaPath, TimeSeriesChart.areaPathTokens, renderPath_nil]

/-- C7 amended witness: at the concrete size `400 × 300`, the
time-series chart on empty data shows the placeholder and the stacked
contribution chart does not. -/
theorem C7_empty_data_placeholders_witness :
    TimeSeriesChart.showsNoData [] 400 300 = true ∧
    MMMContributionChart.showsNoData [] = false := by
  have h := C7_empty_data_placeholders 400 300
  exact ⟨h.1.1, h.2.2.2.2.1⟩

/-- C8: the bar chart input `[(label := "A", value := 0)]` has `maxValue`
falling back to `1`, a raw bar width of `0`, and a rendered fill width of
`max(0, 4) = 4`; in general every rendered fill width is at least `4`
pixels and `maxValue` is never `0` for non-empty data, so the width
computation never divides by zero. -/
theorem C8_bar_minimum_visible_width (width : ℚ) :
    BarChart.maxValue [{ label := "A", value := 0 }] = 1 ∧
    BarChart.barWidth [{ label := "A", value := 0 }] width
      { label := "A", value := 0 } = 0 ∧
    BarChart.renderedBarWidth [{ label := "A", value := 0 }] width
      { label := "A", value := 0 } = max 0 4 ∧
    max (0 : ℚ) 4 = 4 ∧
    (∀ (data : List BarChart.BarDatum) (d : BarChart.BarDatum),
      4 ≤ BarChart.renderedBarWidth data width d) ∧
    (∀ data : List BarChart.BarDatum, data ≠ [] → BarChart.maxValue data ≠ 0) := by
  have hmax : BarChart.maxValue [{ label := "A", value := 0 }] = 1 := by
    simp [BarChart.maxValue, mathMax]
  refine ⟨hmax, ?_, ?_, ?_, ?_, ?_⟩
  · simp [BarChart.barWidth, hmax]
  · simp [BarChart.renderedBarWidth, BarChart.barWidth, hmax]
  · exact max_eq_right (by norm_num)
  · intro data d
    exact le_max_right _ 4
  · intro data hd
    match data with
    | d :: rest =>
      simp only [BarChart.maxValue]
      by_cases hm : mathMax ((d :: rest).map (fun b => b.value)) = 0
      · rw [if_pos hm]
        norm_num
      · rw [if_neg hm]
        exact hm

/-- C8 witness: at width `400` the zero-value bar renders with fill
width `max(0, 4)` and the fallback maximum is `1`, hence nonzero. -/
theorem C8_bar_minimum_visible_width_witness :
    BarChart.maxValue [{ label := "A", value := 0 }] = 1 ∧
    BarChart.renderedBarWidth [{ label := "A", value := 0 }] 400
      { label := "A", value := 0 } = max 0 4 ∧
    BarChart.maxValue [{ label := "A", value := 0 }] ≠ 0 := by
  have h := C8_bar_minimum_visible_width 400
  exact ⟨h.1, h.2.2.1, h.2.2.2.2.2 _ (by simp)⟩

/-- C10: the response-curve cache's effect-and-resolution transitions
satisfy, in order: (1) an effect run that finds an in-flight entry for
its key joins that entry's promise without starting a new fetch or
changing the cache (deduplication of concurrent identical requests);
(2) an entry with resolved data whose expiry is still in the future is
served from cache without any fetch; (3) an expired entry is deleted and
replaced by a fresh in-flight entry while a new fetch starts; (4) the
failure continuation removes the key, so a failure is never cached; (5)
an effect run after a failure finds no entry and starts a new fetch (a
later render retries); (6) after a successful resolution at time `rt`,
any effect run strictly before `rt + CACHE_TTL_MS` serves the resolved
data from cache without refetching. -/
theorem C10_response_cache_transitions :
    (∀ (m : ResponseCache.CacheMap) (k : String) (now pid : ℕ)
        (e : ResponseCache.Entry),
      m k = some e → e.data = none → e.expiresAt = none →
      ResponseCache.effectRun m k now pid =
        (m, ResponseCache.Action.joinInflight e.promiseId)) ∧
    (∀ (m : ResponseCache.CacheMap) (k : String) (now pid : ℕ)
        (e : ResponseCache.Entry) (d t : ℕ),
      m k = some e → e.data = some d → e.expiresAt = some t → now < t →
      ResponseCache.effectRun m k now pid =
        (m, ResponseCache.Action.serveCached d)) ∧
    (∀ (m : ResponseCache.CacheMap) (k : String) (now pid : ℕ)
        (e : ResponseCache.Entry) (t : ℕ),
      m k = some e → e.expiresAt = some t → t ≤ now →
      ResponseCache.effectRun m k now pid =
        (ResponseCache.mapSet (ResponseCache.mapDelete m k) k
          { promiseId := pid, data := none, expiresAt := none },
         ResponseCache.Action.startFetch pid)) ∧
    (∀ (m : ResponseCache.CacheMap) (k : String),
      ResponseCache.resolveFailure m k k = none) ∧
    (∀ (m : ResponseCache.CacheMap) (k : String) (now pid : ℕ),
      ResponseCache.effectRun (ResponseCache.resolveFailure m k) k now pid =
        (ResponseCache.mapSet (ResponseCache.resolveFailure m k) k
          { promiseId := pid, data := none, expiresAt := none },
         ResponseCache.Action.startFetch pid)) ∧
    (∀ (m : ResponseCache.CacheMap) (k : String) (pid d rt now2 pid2 : ℕ)
        (e : ResponseCache.Entry),
      m k = some e → e.promiseId = pid →
      now2 < rt + ResponseCache.CACHE_TTL_MS →
      ResponseCache.effectRun (ResponseCache.resolveSuccess m k pid d rt) k now2 pid2 =
        (ResponseCache.resolveSuccess m k pid d rt,
         ResponseCache.Action.serveCached d)) := by
  refine ⟨?_, ?_, ?_, ?_, ?_, ?_⟩
  · intro m k now pid e h1 h2 h3
    simp [ResponseCache.effectRun, ResponseCache.hasFreshData,
      ResponseCache.isExpired, h1, h2, h3]
  · intro m k now pid e d t h1 h2 h3 h4
    simp [ResponseCache.effectRun, ResponseCache.hasFreshData, h1, h2, h3, h4]
  · intro m k now pid e t h1 h2 h3
    have hnow : ¬ now < t := not_lt.mpr h3
    simp [ResponseCache.effectRun, ResponseCache.hasFreshData,
      ResponseCache.isExpired, h1, h2, hnow, h3]
  · intro m k
    simp [ResponseCache.resolveFailure, ResponseCache.mapDelete]
  · intro m k now pid
    simp [ResponseCache.effectRun, ResponseCache.resolveFailure,
      ResponseCache.mapDelete]
  · intro m k pid d rt now2 pid2 e h1 h2 h3
    simp [ResponseCache.effectRun, ResponseCache.resolveSuccess,
      ResponseCache.mapSet, ResponseCache.hasFreshData, h1, h2, h3]

/-- C10 witness: concretely, a second render that finds the in-flight
entry with promise token `5` under key `"k"` joins that same promise and
leaves the cache unchanged, and after a failure the key is gone. -/
theorem C10_response_cache_transitions_witness :
    ResponseCache.effectRun
        (ResponseCache.mapSet ResponseCache.emptyCache "k"
          { promiseId := 5, data := none, expiresAt := none }) "k" 0 7 =
      (ResponseCache.mapSet ResponseCache.emptyCache "k"
          { promiseId := 5, data := none, expiresAt := none },
       ResponseCache.Action.joinInflight 5) ∧
    ResponseCache.resolveFailure ResponseCache.emptyCache "k" "k" = none := by
  have h := C10_response_cache_transitions
  exact ⟨h.1 _ "k" 0 7 { promiseId := 5, data := none, expiresAt := none }
      (by simp [ResponseCache.mapSet]) rfl rfl,
    h.2.2.2.1 _ "k"⟩
